import Mathlib

/-!
Shallow embedding of the KidOS Behavioral Signal Engine ("IBLM") and the
predictive content pipeline, translated from `src/components/Feed.tsx`
(the `IBLMProvider` variant that owns the content buffer, together with
the `Feed` component's hydration and scroll logic).

Conventions of the embedding:
* timestamps (`Date.now()`) and durations are integers (milliseconds);
* the JS floating-point average `sum / length` is modelled exactly as a
  rational number, and `Math.round` as `jsRound` below;
* React state updates (`setMetrics`, `setBuffer`) are modelled as pure
  state transitions applied immediately and atomically, the standard
  single-threaded event-loop assumption of the source;
* the asynchronous body of `hydrateItem` is split into its synchronous
  phase (`hydrateItem`, which also reports whether a generation request
  was issued) and its completion callback (`hydrateItemComplete`, whose
  `Option String` argument is the settled result of `generateImage`:
  `none` for an exception or a null/absent result).
-/

namespace KidOS

/-- JS `Math.round`: rounds half toward positive infinity.
Defined via the computable `Rat.floor`. -/
def jsRound (q : ℚ) : ℤ := Rat.floor (q + 1/2)

/-- Hydration lifecycle of a feed item. The source spells the
intermediate state `'HYDRATED'` (the spec calls it HYDRATING). -/
inductive HydrationStatus where
  | EMPTY
  | HYDRATED
  | READY
deriving DecidableEq

/-- A content item of the buffer (`FeedItem` plus the `hydrationStatus`
and `imageUrl` fields used by `Feed.tsx`). -/
structure FeedItem where
  id : String
  title : String
  fact : String
  imageUrl : String
  topic : String
  hydrationStatus : HydrationStatus
deriving DecidableEq

/-- A content-item skeleton as returned by the content generator
(`generatePredictivePackage`): payload text only, before `imageUrl` and
`hydrationStatus` are attached by `loadInitialTrack`/`extendTrack`. -/
structure Skeleton where
  id : String
  title : String
  fact : String
  topic : String
deriving DecidableEq

inductive CuriosityType where
  | VISUAL
  | TEXTUAL
deriving DecidableEq

inductive EnergyLevel where
  | CALM
  | HIGH
deriving DecidableEq

inductive Difficulty where
  | EASY
  | MEDIUM
  | HARD
deriving DecidableEq

inductive ContentFormat where
  | FACT
  | GAME
  | STORY
  | VIDEO
deriving DecidableEq

inductive TopicCategory where
  | STANDARD
  | HIGH_ENERGY
  | CALM
deriving DecidableEq

structure ContentRecommendation where
  difficulty : Difficulty
  format : ContentFormat
  topicCategory : TopicCategory
  reason : String
deriving DecidableEq

structure IBLMMetrics where
  attentionSpan : ℤ
  frustrationLevel : ℤ
  curiosityType : CuriosityType
  energyLevel : EnergyLevel
  sessionDuration : ℤ
  topicStickiness : ℤ
deriving DecidableEq

structure Interaction where
  id : String
  startTime : ℤ
  type : String
deriving DecidableEq

/-- The state owned by `IBLMProvider`: `metrics`, `contentBuffer`,
`activeInteraction` and `interactionHistory` (both refs). -/
structure IBLMState where
  metrics : IBLMMetrics
  contentBuffer : List FeedItem
  activeInteraction : Option Interaction
  interactionHistory : List ℤ
deriving DecidableEq

def initialMetrics : IBLMMetrics :=
  { attentionSpan := 5000
    frustrationLevel := 0
    curiosityType := .VISUAL
    energyLevel := .CALM
    sessionDuration := 0
    topicStickiness := 5 }

def initialState : IBLMState :=
  { metrics := initialMetrics
    contentBuffer := []
    activeInteraction := none
    interactionHistory := [] }

def startInteraction (id ty : String) (now : ℤ) (s : IBLMState) : IBLMState :=
  { s with activeInteraction := some { id := id, startTime := now, type := ty } }

def endInteraction (success : Bool) (now : ℤ) (s : IBLMState) : IBLMState :=
  match s.activeInteraction with
  | none => s
  | some a =>
    let duration := now - a.startTime
    let newHistory := (duration :: s.interactionHistory).take 5
    let avgDuration : ℚ := (newHistory.sum : ℚ) / (newHistory.length : ℚ)
    { s with
      metrics := { s.metrics with
        attentionSpan := jsRound avgDuration
        energyLevel := if avgDuration < 4000 then .HIGH else .CALM
        frustrationLevel :=
          if success then max 0 (s.metrics.frustrationLevel - 1)
          else s.metrics.frustrationLevel
        topicStickiness :=
          if 10000 < duration then min 10 (s.metrics.topicStickiness + 1)
          else max 0 (s.metrics.topicStickiness - 1) }
      activeInteraction := none
      interactionHistory := newHistory }

def reportFrustration (amount : ℤ) (s : IBLMState) : IBLMState :=
  { s with metrics := { s.metrics with
      frustrationLevel := min 10 (s.metrics.frustrationLevel + amount) } }

def reportSuccess (s : IBLMState) : IBLMState :=
  { s with metrics := { s.metrics with
      frustrationLevel := max 0 (s.metrics.frustrationLevel - 2) } }

def decideNextContent (m : IBLMMetrics) : ContentRecommendation :=
  if 3 < m.frustrationLevel then
    { difficulty := .EASY, format := .GAME, topicCategory := .CALM,
      reason := "CALMING ESCAPE" }
  else if m.attentionSpan < 4000 then
    { difficulty := .EASY, format := .VIDEO, topicCategory := .HIGH_ENERGY,
      reason := "RECAPTURING FOCUS" }
  else if 7 < m.topicStickiness then
    { difficulty := .HARD, format := .STORY, topicCategory := .STANDARD,
      reason := "DEEP DIVE" }
  else
    { difficulty := .MEDIUM, format := .FACT, topicCategory := .STANDARD,
      reason := "GENERAL DISCOVERY" }

def resetMetrics (s : IBLMState) : IBLMState :=
  { s with
    metrics := { attentionSpan := 5000, frustrationLevel := 0,
                 curiosityType := .VISUAL, energyLevel := .CALM,
                 sessionDuration := 0, topicStickiness := 5 }
    interactionHistory := []
    contentBuffer := [] }

/-- One tick of the session timer (`setInterval` body). -/
def sessionTick (s : IBLMState) : IBLMState :=
  { s with metrics := { s.metrics with
      sessionDuration := s.metrics.sessionDuration + 1 } }

/-- `prev.map((it, i) => i === index ? f(it) : it)`. -/
def updateAt (i : Nat) (f : FeedItem → FeedItem) : List FeedItem → List FeedItem
  | [] => []
  | it :: rest =>
    match i with
    | 0 => f it :: rest
    | j+1 => it :: updateAt j f rest

/-- Synchronous phase of `hydrateItem`: the out-of-range / non-EMPTY
guard and the immediate transition to `HYDRATED`. The boolean records
whether execution reached the `generateImage` request. -/
def hydrateItem (index : Nat) (buf : List FeedItem) : List FeedItem × Bool :=
  match buf[index]? with
  | none => (buf, false)
  | some item =>
    if item.hydrationStatus = .EMPTY then
      (updateAt index (fun it => { it with hydrationStatus := .HYDRATED }) buf, true)
    else (buf, false)

/-- Completion callback of `hydrateItem`'s awaited `generateImage`:
`if (img) { setBuffer(... imageUrl: img, hydrationStatus: 'READY' ...) }`.
A `none` result models an exception; the empty string is JS-falsy. -/
def hydrateItemComplete (index : Nat) (img : Option String)
    (buf : List FeedItem) : List FeedItem :=
  match img with
  | none => buf
  | some url =>
    if url = "" then buf
    else updateAt index
      (fun it => { it with imageUrl := url, hydrationStatus := .READY }) buf

/-- `pkg.map(p => ({ ...p, imageUrl: '', hydrationStatus: 'EMPTY' }))`. -/
def skeletonToEmpty (p : Skeleton) : FeedItem :=
  { id := p.id, title := p.title, fact := p.fact, imageUrl := "",
    topic := p.topic, hydrationStatus := .EMPTY }

/-- `extendTrack`, with the settled result of the (external)
`generatePredictivePackage` call passed in as `pkg`:
`setBuffer(prev => [...prev, ...newItems])`. -/
def extendTrack (pkg : List Skeleton) (s : IBLMState) : IBLMState :=
  { s with contentBuffer := s.contentBuffer ++ pkg.map skeletonToEmpty }

/-- The look-ahead effect of `Feed`: on a visible-position change it
calls `hydrateItem` for the current index and the next two. The second
component collects the indices for which a generation request was
issued. -/
def lookAhead (visibleIndex : Nat) (buf : List FeedItem) :
    List FeedItem × List Nat :=
  if buf.length = 0 then (buf, [])
  else
    let r1 := hydrateItem visibleIndex buf
    let r2 := hydrateItem (visibleIndex + 1) r1.fst
    let r3 := hydrateItem (visibleIndex + 2) r2.fst
    (r3.fst,
      (if r1.snd then [visibleIndex] else []) ++
      (if r2.snd then [visibleIndex + 1] else []) ++
      (if r3.snd then [visibleIndex + 2] else []))

structure FeedState where
  iblm : IBLMState
  visibleIndex : Nat
deriving DecidableEq

/-- The interaction-pairing part of `handleScroll`:
`endInteraction(true)` followed by `startInteraction` on the newly
visible item when it exists. -/
def scrollInteraction (newIndex : Nat) (now : ℤ) (st : IBLMState) : IBLMState :=
  let st1 := endInteraction true now st
  match st1.contentBuffer[newIndex]? with
  | some it => startInteraction it.id "feed" now st1
  | none => st1

/-- `handleScroll`, for a scroll event resolving to `newIndex`. The
boolean records whether `extendTrack` was invoked; `pkg` is the settled
batch of the external generator used when it is. -/
def handleScroll (newIndex : Nat) (now : ℤ) (pkg : List Skeleton)
    (s : FeedState) : FeedState × Bool :=
  if newIndex = s.visibleIndex then (s, false)
  else
    let st2 := scrollInteraction newIndex now s.iblm
    if (s.iblm.contentBuffer.length : ℤ) - 2 ≤ (newIndex : ℤ) then
      ({ iblm := extendTrack pkg st2, visibleIndex := newIndex }, true)
    else
      ({ iblm := st2, visibleIndex := newIndex }, false)

/-- The events that mutate the content buffer in the trace alphabet of
the hydration pipeline: the synchronous phase of a `hydrateItem` call,
the completion of its asynchronous asset request, and an `extendTrack`
append. -/
inductive BufStep where
  | start : Nat → BufStep
  | complete : Nat → Option String → BufStep
  | extend : List Skeleton → BufStep
deriving DecidableEq

def applyBufStep (buf : List FeedItem) : BufStep → List FeedItem
  | .start i => (hydrateItem i buf).fst
  | .complete i img => hydrateItemComplete i img buf
  | .extend pkg => buf ++ pkg.map skeletonToEmpty

def applyBufTrace (tr : List BufStep) (buf : List FeedItem) : List FeedItem :=
  tr.foldl applyBufStep buf

/-- The operations that mutate the Metrics State. -/
inductive MetricsOp where
  | startOp : String → String → ℤ → MetricsOp
  | endOp : Bool → ℤ → MetricsOp
  | frustrationOp : ℤ → MetricsOp
  | successOp : MetricsOp
deriving DecidableEq

def applyMetricsOp (s : IBLMState) : MetricsOp → IBLMState
  | .startOp id ty now => startInteraction id ty now s
  | .endOp success now => endInteraction success now s
  | .frustrationOp amount => reportFrustration amount s
  | .successOp => reportSuccess s

def runOps (tr : List MetricsOp) (s : IBLMState) : IBLMState :=
  tr.foldl applyMetricsOp s

/-- `reportFrustration` is called with a non-negative amount. -/
def amountOk : MetricsOp → Bool
  | .frustrationOp a => decide (0 ≤ a)
  | _ => true

/-- A completed interaction: a `startInteraction` at the first time
immediately followed by an `endInteraction` at the second, with the
given success flag. -/
def applyPair (s : IBLMState) (p : ℤ × ℤ × Bool) : IBLMState :=
  endInteraction p.2.2 p.2.1 (startInteraction "card" "feed" p.1 s)

def runPairs (ps : List (ℤ × ℤ × Bool)) (s : IBLMState) : IBLMState :=
  ps.foldl applyPair s

/-- The recorded duration of a completed interaction. -/
def pairDur (p : ℤ × ℤ × Bool) : ℤ := p.2.1 - p.1

def statusRank : HydrationStatus → Nat
  | .EMPTY => 0
  | .HYDRATED => 1
  | .READY => 2

/-- An index holds an item whose hydration would issue a request. -/
def requestable (buf : List FeedItem) (j : Nat) : Bool :=
  match buf[j]? with
  | some it => decide (it.hydrationStatus = .EMPTY)
  | none => false

/-- The bounded-range invariant of the Metrics State. -/
def metricsInRange (s : IBLMState) : Prop :=
  0 ≤ s.metrics.frustrationLevel ∧ s.metrics.frustrationLevel ≤ 10 ∧
  0 ≤ s.metrics.topicStickiness ∧ s.metrics.topicStickiness ≤ 10

/-- A sample buffer item, a sample generated skeleton and a sample
trace, used as concrete instantiations. -/
def sampleItem : FeedItem :=
  { id := "a", title := "t", fact := "f", imageUrl := "", topic := "k", hydrationStatus := .EMPTY }

def sampleItemReady : FeedItem :=
  { id := "a", title := "t", fact := "f", imageUrl := "u", topic := "k", hydrationStatus := .READY }

def sampleSkeleton : Skeleton :=
  { id := "b", title := "t2", fact := "f2", topic := "k2" }

def sampleTrace : List BufStep :=
  [BufStep.start 0, BufStep.complete 0 (some "u"),
   BufStep.extend [sampleSkeleton]]

/-- A 4-item buffer viewed at index 1, and a 3-item generated batch,
used as concrete instantiations. -/
def sampleBuffer4 : List FeedItem :=
  [{ id := "i0", title := "t0", fact := "f0", imageUrl := "", topic := "k", hydrationStatus := .READY },
   { id := "i1", title := "t1", fact := "f1", imageUrl := "", topic := "k", hydrationStatus := .READY },
   { id := "i2", title := "t2", fact := "f2", imageUrl := "", topic := "k", hydrationStatus := .EMPTY },
   { id := "i3", title := "t3", fact := "f3", imageUrl := "", topic := "k", hydrationStatus := .EMPTY }]

def sampleFeedState : FeedState :=
  { iblm := { metrics := initialMetrics, contentBuffer := sampleBuffer4,
              activeInteraction := none, interactionHistory := [] }
    visibleIndex := 1 }

def samplePkg3 : List Skeleton :=
  [{ id := "p1", title := "u1", fact := "g1", topic := "w" },
   { id := "p2", title := "u2", fact := "g2", topic := "w" },
   { id := "p3", title := "u3", fact := "g3", topic := "w" }]

/-! ## Generic helper lemmas -/

theorem jsRound_eq_floor (q : ℚ) : jsRound q = ⌊q + 1/2⌋ := by
  rw [jsRound, Rat.floor_def, Rat.floor_def']

theorem jsRound_abs (q : ℚ) : |((jsRound q : ℚ)) - q| ≤ 1/2 := by
  rw [jsRound_eq_floor, abs_le]
  constructor
  · have h : ((⌊q + 1/2⌋ : ℚ)) > q + 1/2 - 1 := by
      exact_mod_cast Int.sub_one_lt_floor (q + 1/2)
    linarith
  · have h := Int.floor_le (q + 1/2)
    linarith

theorem take_append_take (A B : List ℤ) (n : ℕ) :
    (A ++ B.take n).take n = (A ++ B).take n := by
  rw [List.take_append_eq_append_take, List.take_append_eq_append_take,
    List.take_take]
  have h : min (n - A.length) n = n - A.length := Nat.min_eq_left (Nat.sub_le _ _)
  rw [h]

theorem updateAt_getElem? (i j : ℕ) (f : FeedItem → FeedItem)
    (buf : List FeedItem) :
    (updateAt i f buf)[j]? = if j = i then buf[j]?.map f else buf[j]? := by
  induction buf generalizing i j with
  | nil => simp [updateAt]
  | cons a l ih =>
    cases i with
    | zero =>
      cases j with
      | zero => simp [updateAt]
      | succ j => simp [updateAt]
    | succ i =>
      cases j with
      | zero => simp [updateAt]
      | succ j => simpa [updateAt] using ih i j

theorem updateAt_map_id (i : ℕ) (f : FeedItem → FeedItem)
    (hf : ∀ it, (f it).id = it.id) (buf : List FeedItem) :
    (updateAt i f buf).map FeedItem.id = buf.map FeedItem.id := by
  induction buf generalizing i with
  | nil => simp [updateAt]
  | cons a l ih =>
    cases i with
    | zero => simp [updateAt, hf]
    | succ i => simp [updateAt, ih]

/-! ## C1: recommendation policy -/

/-- C1: `decideNextContent` is pure and evaluates its rules in priority
order: frustrationLevel > 3 gives EASY/GAME/CALM; else attentionSpan <
4000 gives EASY/VIDEO/HIGH_ENERGY; else topicStickiness > 7 gives
HARD/STORY/STANDARD; else MEDIUM/FACT/STANDARD. -/
theorem decideNextContent_priority (m : IBLMMetrics) :
    (3 < m.frustrationLevel →
      decideNextContent m =
        { difficulty := .EASY, format := .GAME, topicCategory := .CALM,
          reason := "CALMING ESCAPE" }) ∧
    (m.frustrationLevel ≤ 3 → m.attentionSpan < 4000 →
      decideNextContent m =
        { difficulty := .EASY, format := .VIDEO, topicCategory := .HIGH_ENERGY,
          reason := "RECAPTURING FOCUS" }) ∧
    (m.frustrationLevel ≤ 3 → 4000 ≤ m.attentionSpan → 7 < m.topicStickiness →
      decideNextContent m =
        { difficulty := .HARD, format := .STORY, topicCategory := .STANDARD,
          reason := "DEEP DIVE" }) ∧
    (m.frustrationLevel ≤ 3 → 4000 ≤ m.attentionSpan → m.topicStickiness ≤ 7 →
      decideNextContent m =
        { difficulty := .MEDIUM, format := .FACT, topicCategory := .STANDARD,
          reason := "GENERAL DISCOVERY" }) := by
  unfold decideNextContent
  refine ⟨?_, ?_, ?_, ?_⟩ <;> intros <;> split_ifs <;> first | rfl | omega

/-- Witness for C1: the spec's own example, frustration 5 with
attentionSpan 1000 yields the GAME/CALM rule, not the VIDEO rule. -/
theorem decideNextContent_priority_witness :
    3 < ({ attentionSpan := 1000, frustrationLevel := 5,
           curiosityType := .VISUAL, energyLevel := .CALM,
           sessionDuration := 0,
           topicStickiness := 5 } : IBLMMetrics).frustrationLevel ∧
    decideNextContent { attentionSpan := 1000, frustrationLevel := 5,
                        curiosityType := .VISUAL, energyLevel := .CALM,
                        sessionDuration := 0, topicStickiness := 5 } =
      { difficulty := .EASY, format := .GAME, topicCategory := .CALM,
        reason := "CALMING ESCAPE" } :=
  ⟨by decide, (decideNextContent_priority _).1 (by decide)⟩

/-! ## C3: bounded metrics -/

theorem applyMetricsOp_range (s : IBLMState) (op : MetricsOp)
    (hs : metricsInRange s) (hop : amountOk op = true) :
    metricsInRange (applyMetricsOp s op) := by
  obtain ⟨h1, h2, h3, h4⟩ := hs
  cases op with
  | startOp id ty now => exact ⟨h1, h2, h3, h4⟩
  | endOp success now =>
    show metricsInRange (endInteraction success now s)
    unfold endInteraction
    cases hact : s.activeInteraction with
    | none => exact ⟨h1, h2, h3, h4⟩
    | some a =>
      unfold metricsInRange
      dsimp only
      split_ifs <;> omega
  | frustrationOp a =>
    have ha : (0:ℤ) ≤ a := of_decide_eq_true hop
    show metricsInRange (reportFrustration a s)
    unfold metricsInRange reportFrustration
    dsimp only
    omega
  | successOp =>
    show metricsInRange (reportSuccess s)
    unfold metricsInRange reportSuccess
    dsimp only
    omega

theorem runOps_range (tr : List MetricsOp) :
    ∀ s, metricsInRange s → (∀ op ∈ tr, amountOk op = true) →
      metricsInRange (runOps tr s) := by
  induction tr with
  | nil => intro s hs _; exact hs
  | cons op tr ih =>
    intro s hs hops
    exact ih _ (applyMetricsOp_range s op hs (hops op (by simp)))
      (fun o ho => hops o (by simp [ho]))

/-- C3 (amended): for every sequence of `startInteraction`,
`endInteraction`, `reportFrustration` and `reportSuccess` calls in which
every `reportFrustration` amount is non-negative (amounts above 10
included), `frustrationLevel` and `topicStickiness` stay within
[0, 10] after every mutation. -/
theorem frustration_stickiness_in_range (tr : List MetricsOp)
    (h : ∀ op ∈ tr, amountOk op = true) :
    0 ≤ (runOps tr initialState).metrics.frustrationLevel ∧
    (runOps tr initialState).metrics.frustrationLevel ≤ 10 ∧
    0 ≤ (runOps tr initialState).metrics.topicStickiness ∧
    (runOps tr initialState).metrics.topicStickiness ≤ 10 :=
  runOps_range tr initialState ⟨by decide, by decide, by decide, by decide⟩ h

/-- Witness for C3 (amended), with an amount above 10 in the trace. -/
theorem frustration_stickiness_in_range_witness :
    (∀ op ∈ [MetricsOp.frustrationOp 5, MetricsOp.successOp,
      MetricsOp.frustrationOp 20], amountOk op = true) ∧
    (0 ≤ (runOps [MetricsOp.frustrationOp 5, MetricsOp.successOp,
        MetricsOp.frustrationOp 20] initialState).metrics.frustrationLevel ∧
      (runOps [MetricsOp.frustrationOp 5, MetricsOp.successOp,
        MetricsOp.frustrationOp 20] initialState).metrics.frustrationLevel ≤ 10 ∧
      0 ≤ (runOps [MetricsOp.frustrationOp 5, MetricsOp.successOp,
        MetricsOp.frustrationOp 20] initialState).metrics.topicStickiness ∧
      (runOps [MetricsOp.frustrationOp 5, MetricsOp.successOp,
        MetricsOp.frustrationOp 20] initialState).metrics.topicStickiness ≤ 10) :=
  ⟨by decide, frustration_stickiness_in_range _ (by decide)⟩

/-- C3 counterexample: `reportFrustration(-1)` from the initial state
drives `frustrationLevel` to −1, outside [0, 10] — the code clamps only
from above (`Math.min(10, …)`), not from below. -/
theorem reportFrustration_negative_cx :
    (runOps [MetricsOp.frustrationOp (-1)] initialState).metrics.frustrationLevel
      = -1 ∧
    (runOps [MetricsOp.frustrationOp (-1)] initialState).metrics.frustrationLevel
      < 0 := by
  decide

/-! ## C8: invalid calls are no-ops -/

/-- C8: `endInteraction` with no active interaction returns the state
unchanged, and `hydrateItem` with an out-of-range index returns the
buffer unchanged and issues no request. -/
theorem invalid_calls_noop :
    (∀ (s : IBLMState) (success : Bool) (now : ℤ),
      s.activeInteraction = none → endInteraction success now s = s) ∧
    (∀ (buf : List FeedItem) (i : ℕ), buf.length ≤ i →
      hydrateItem i buf = (buf, false)) := by
  constructor
  · intro s success now h
    unfold endInteraction
    rw [h]
  · intro buf i h
    unfold hydrateItem
    rw [List.getElem?_eq_none h]

/-- Witness for C8. -/
theorem invalid_calls_noop_witness :
    (initialState.activeInteraction = none ∧
      endInteraction true 5 initialState = initialState) ∧
    (([] : List FeedItem).length ≤ 3 ∧
      hydrateItem 3 ([] : List FeedItem) = ([], false)) :=
  ⟨⟨rfl, invalid_calls_noop.1 initialState true 5 rfl⟩,
   ⟨by decide, invalid_calls_noop.2 [] 3 (by decide)⟩⟩

/-! ## C9: resetMetrics -/

/-- C9 counterexample: after seven session-timer ticks the metrics
show `sessionDuration = 7`, but `resetMetrics` sets it back to 0 —
the elapsed session duration is not preserved across the reset. -/
theorem resetMetrics_sessionDuration_cx :
    (sessionTick (sessionTick (sessionTick (sessionTick (sessionTick
      (sessionTick (sessionTick initialState))))))).metrics.sessionDuration
      = 7 ∧
    (resetMetrics (sessionTick (sessionTick (sessionTick (sessionTick
      (sessionTick (sessionTick (sessionTick
        initialState)))))))).metrics.sessionDuration = 0 ∧
    (resetMetrics (sessionTick (sessionTick (sessionTick (sessionTick
      (sessionTick (sessionTick (sessionTick
        initialState)))))))).metrics.sessionDuration ≠
      (sessionTick (sessionTick (sessionTick (sessionTick (sessionTick
        (sessionTick (sessionTick
          initialState))))))).metrics.sessionDuration := by
  decide

/-- C9 (amended): `resetMetrics` restores every Metrics State field to
its initial baseline (attentionSpan 5000, frustrationLevel 0,
energyLevel CALM, topicStickiness 5) and clears the interaction history
and the Content Buffer; it also resets `sessionDuration` to 0 rather
than preserving the elapsed value. -/
theorem resetMetrics_baseline (s : IBLMState) :
    (resetMetrics s).metrics = initialMetrics ∧
    (resetMetrics s).interactionHistory = [] ∧
    (resetMetrics s).contentBuffer = [] ∧
    (resetMetrics s).metrics.sessionDuration = 0 :=
  ⟨rfl, rfl, rfl, rfl⟩

/-! ## C2 and C10: the rolling attention-span average -/

theorem applyPair_history (s : IBLMState) (p : ℤ × ℤ × Bool) :
    (applyPair s p).interactionHistory =
      (pairDur p :: s.interactionHistory).take 5 := rfl

theorem applyPair_span (s : IBLMState) (p : ℤ × ℤ × Bool) :
    (applyPair s p).metrics.attentionSpan =
      jsRound (((applyPair s p).interactionHistory.sum : ℚ) /
        ((applyPair s p).interactionHistory.length : ℚ)) := rfl

theorem runPairs_history (ps : List (ℤ × ℤ × Bool)) :
    ∀ s : IBLMState, s.interactionHistory.length ≤ 5 →
      (runPairs ps s).interactionHistory =
        ((ps.map pairDur).reverse ++ s.interactionHistory).take 5 := by
  induction ps with
  | nil =>
    intro s hs
    simp only [runPairs, List.foldl_nil, List.map_nil, List.reverse_nil,
      List.nil_append]
    exact (List.take_of_length_le hs).symm
  | cons p qs ih =>
    intro s hs
    have step : runPairs (p :: qs) s = runPairs qs (applyPair s p) := rfl
    have hlen : (applyPair s p).interactionHistory.length ≤ 5 := by
      rw [applyPair_history]
      simp
    rw [step, ih (applyPair s p) hlen, applyPair_history, take_append_take]
    simp [List.append_assoc]

theorem runPairs_final (ps : List (ℤ × ℤ × Bool)) (hne : ps ≠ []) :
    (runPairs ps initialState).interactionHistory =
      ((ps.map pairDur).reverse).take 5 ∧
    (runPairs ps initialState).metrics.attentionSpan =
      jsRound ((((ps.map pairDur).reverse.take 5).sum : ℚ) /
        (((ps.map pairDur).reverse.take 5).length : ℚ)) := by
  have hh : (runPairs ps initialState).interactionHistory =
      ((ps.map pairDur).reverse).take 5 := by
    simpa [initialState] using
      runPairs_history ps initialState (by simp [initialState])
  refine ⟨hh, ?_⟩
  obtain ⟨qs, p, rfl⟩ : ∃ qs p, ps = qs ++ [p] := by
    rcases List.eq_nil_or_concat ps with h1 | ⟨qs, p, h1⟩
    · exact absurd h1 hne
    · exact ⟨qs, p, by simpa [List.concat_eq_append] using h1⟩
  have hs : runPairs (qs ++ [p]) initialState =
      applyPair (runPairs qs initialState) p := by
    rw [runPairs, List.foldl_append]
    rfl
  rw [hs, applyPair_span, ← hs, hh]

/-- C2 (amended): for every nonempty sequence of completed
interactions, the recorded history holds at most the last 5 durations
(newest first, oldest evicted), and `attentionSpan` equals the
arithmetic mean of that history rounded to the nearest integer
(`Math.round`), not the exact mean. -/
theorem attentionSpan_rounded_rolling_mean (ps : List (ℤ × ℤ × Bool))
    (hne : ps ≠ []) :
    (runPairs ps initialState).interactionHistory =
      ((ps.map pairDur).reverse).take 5 ∧
    (runPairs ps initialState).metrics.attentionSpan =
      jsRound ((((ps.map pairDur).reverse.take 5).sum : ℚ) /
        (((ps.map pairDur).reverse.take 5).length : ℚ)) :=
  runPairs_final ps hne

/-- Witness for C2 (amended): six completed interactions, so the
oldest duration is evicted from the 5-slot history. -/
theorem attentionSpan_rounded_rolling_mean_witness :
    ([((0:ℤ), (1:ℤ), true), ((0:ℤ), (2:ℤ), true), ((0:ℤ), (3:ℤ), true),
      ((0:ℤ), (4:ℤ), true), ((0:ℤ), (5:ℤ), true), ((0:ℤ), (6:ℤ), true)] ≠
        ([] : List (ℤ × ℤ × Bool))) ∧
    ((runPairs [((0:ℤ), (1:ℤ), true), ((0:ℤ), (2:ℤ), true),
        ((0:ℤ), (3:ℤ), true), ((0:ℤ), (4:ℤ), true), ((0:ℤ), (5:ℤ), true),
        ((0:ℤ), (6:ℤ), true)] initialState).interactionHistory =
      (([((0:ℤ), (1:ℤ), true), ((0:ℤ), (2:ℤ), true), ((0:ℤ), (3:ℤ), true),
        ((0:ℤ), (4:ℤ), true), ((0:ℤ), (5:ℤ), true),
        ((0:ℤ), (6:ℤ), true)].map pairDur).reverse).take 5 ∧
    (runPairs [((0:ℤ), (1:ℤ), true), ((0:ℤ), (2:ℤ), true),
        ((0:ℤ), (3:ℤ), true), ((0:ℤ), (4:ℤ), true), ((0:ℤ), (5:ℤ), true),
        ((0:ℤ), (6:ℤ), true)] initialState).metrics.attentionSpan =
      jsRound (((([((0:ℤ), (1:ℤ), true), ((0:ℤ), (2:ℤ), true),
          ((0:ℤ), (3:ℤ), true), ((0:ℤ), (4:ℤ), true), ((0:ℤ), (5:ℤ), true),
          ((0:ℤ), (6:ℤ), true)].map pairDur).reverse.take 5).sum : ℚ) /
        ((([((0:ℤ), (1:ℤ), true), ((0:ℤ), (2:ℤ), true), ((0:ℤ), (3:ℤ), true),
          ((0:ℤ), (4:ℤ), true), ((0:ℤ), (5:ℤ), true),
          ((0:ℤ), (6:ℤ), true)].map pairDur).reverse.take 5).length : ℚ))) :=
  ⟨by decide, attentionSpan_rounded_rolling_mean _ (by decide)⟩

/-- C2 counterexample: after two completed interactions of durations
1 ms and 2 ms the stored `attentionSpan` is `Math.round(3/2) = 2`,
which differs from the exact arithmetic mean 3/2 of the recorded
durations. -/
theorem attentionSpan_not_exact_mean_cx :
    (runPairs [((0:ℤ), (1:ℤ), true), ((10:ℤ), (12:ℤ), true)]
      initialState).interactionHistory = [2, 1] ∧
    (runPairs [((0:ℤ), (1:ℤ), true), ((10:ℤ), (12:ℤ), true)]
      initialState).metrics.attentionSpan = 2 ∧
    (((runPairs [((0:ℤ), (1:ℤ), true), ((10:ℤ), (12:ℤ), true)]
        initialState).metrics.attentionSpan : ℚ)) ≠
      (((runPairs [((0:ℤ), (1:ℤ), true), ((10:ℤ), (12:ℤ), true)]
          initialState).interactionHistory.sum : ℚ) /
        ((runPairs [((0:ℤ), (1:ℤ), true), ((10:ℤ), (12:ℤ), true)]
          initialState).interactionHistory.length : ℚ)) := by
  have h := runPairs_final [((0:ℤ), (1:ℤ), true), ((10:ℤ), (12:ℤ), true)]
    (by decide)
  have hh : (runPairs [((0:ℤ), (1:ℤ), true), ((10:ℤ), (12:ℤ), true)]
      initialState).interactionHistory = [2, 1] := by
    rw [h.1]; decide
  have he : (([((0:ℤ), (1:ℤ), true), ((10:ℤ), (12:ℤ), true)].map
      pairDur).reverse.take 5) = [2, 1] := by decide
  have hspan : (runPairs [((0:ℤ), (1:ℤ), true), ((10:ℤ), (12:ℤ), true)]
      initialState).metrics.attentionSpan = 2 := by
    rw [h.2, he]
    show jsRound ((((2:ℤ) + ((1:ℤ) + 0) : ℤ) : ℚ) / ((2:ℕ) : ℚ)) = 2
    rw [jsRound_eq_floor, Int.floor_eq_iff]
    norm_num
  refine ⟨hh, hspan, ?_⟩
  rw [hh, hspan]
  norm_num

/-- C10: the stored `attentionSpan` is the integer `Math.round` of the
exact mean of the recorded history, and therefore differs from that
exact mean by at most 0.5. -/
theorem attentionSpan_round_error (ps : List (ℤ × ℤ × Bool))
    (hne : ps ≠ []) :
    (runPairs ps initialState).metrics.attentionSpan =
      jsRound ((((ps.map pairDur).reverse.take 5).sum : ℚ) /
        (((ps.map pairDur).reverse.take 5).length : ℚ)) ∧
    |(((runPairs ps initialState).metrics.attentionSpan : ℚ)) -
        (((ps.map pairDur).reverse.take 5).sum : ℚ) /
          (((ps.map pairDur).reverse.take 5).length : ℚ)| ≤ 1/2 := by
  have h := runPairs_final ps hne
  refine ⟨h.2, ?_⟩
  rw [h.2]
  exact jsRound_abs _

/-- Witness for C10: a single completed interaction of duration 3 ms. -/
theorem attentionSpan_round_error_witness :
    ([((0:ℤ), (3:ℤ), false)] ≠ ([] : List (ℤ × ℤ × Bool))) ∧
    ((runPairs [((0:ℤ), (3:ℤ), false)] initialState).metrics.attentionSpan =
      jsRound (((([((0:ℤ), (3:ℤ), false)].map pairDur).reverse.take 5).sum : ℚ) /
        ((([((0:ℤ), (3:ℤ), false)].map pairDur).reverse.take 5).length : ℚ)) ∧
    |(((runPairs [((0:ℤ), (3:ℤ), false)]
          initialState).metrics.attentionSpan : ℚ)) -
        ((([((0:ℤ), (3:ℤ), false)].map pairDur).reverse.take 5).sum : ℚ) /
          ((([((0:ℤ), (3:ℤ), false)].map
            pairDur).reverse.take 5).length : ℚ)| ≤ 1/2) :=
  ⟨by decide, attentionSpan_round_error _ (by decide)⟩

/-! ## C5, C6: hydration requests -/

theorem hydrateItem_snd (i : ℕ) (buf : List FeedItem) :
    (hydrateItem i buf).snd = requestable buf i := by
  unfold hydrateItem requestable
  cases hbi : buf[i]? with
  | none => rfl
  | some item =>
    by_cases hst : item.hydrationStatus = .EMPTY <;> simp [hst]

theorem hydrateItem_fst_getElem?_ne (i j : ℕ) (h : j ≠ i)
    (buf : List FeedItem) : (hydrateItem i buf).fst[j]? = buf[j]? := by
  unfold hydrateItem
  cases hbi : buf[i]? with
  | none => rfl
  | some item =>
    by_cases hst : item.hydrationStatus = .EMPTY
    · simp [hst, updateAt_getElem?, h]
    · simp [hst]

theorem requestable_hydrate_ne (i j : ℕ) (h : j ≠ i) (buf : List FeedItem) :
    requestable ((hydrateItem i buf).fst) j = requestable buf j := by
  unfold requestable
  rw [hydrateItem_fst_getElem?_ne i j h]

/-- C5: calling `hydrateItem i` twice in immediate succession (before
the asynchronous result resolves) issues no request on the second call,
so at most one generation request is issued for index `i`. -/
theorem hydrateItem_idempotent (buf : List FeedItem) (i : ℕ) :
    (hydrateItem i (hydrateItem i buf).fst).snd = false ∧
    (if (hydrateItem i buf).snd then 1 else 0) +
      (if (hydrateItem i (hydrateItem i buf).fst).snd then 1 else 0) ≤ 1 := by
  have hsnd : (hydrateItem i (hydrateItem i buf).fst).snd = false := by
    rw [hydrateItem_snd]
    unfold hydrateItem
    cases hbi : buf[i]? with
    | none => simp [requestable, hbi]
    | some item =>
      by_cases hst : item.hydrationStatus = .EMPTY
      · simp [hst, requestable, updateAt_getElem?, hbi]
      · simp [hst, requestable, hbi]
  refine ⟨hsnd, ?_⟩
  rw [hsnd]
  split <;> simp

/-- C6: on a visible-position change to index `v`, the look-ahead
effect issues generation requests exactly at the indices of the window
{v, v+1, v+2} that are in range and hold an `EMPTY` item — never for
indices further ahead, and never re-triggering items already
`HYDRATED` (HYDRATING) or `READY`. -/
theorem lookAhead_window (v : ℕ) (buf : List FeedItem) :
    (lookAhead v buf).snd = [v, v+1, v+2].filter (requestable buf) := by
  unfold lookAhead
  by_cases h0 : buf.length = 0
  · have hb : buf = [] := List.length_eq_zero.mp h0
    subst hb
    simp [requestable]
  · have e1 : (hydrateItem v buf).snd = requestable buf v := hydrateItem_snd v buf
    have e2 : (hydrateItem (v+1) (hydrateItem v buf).fst).snd =
        requestable buf (v+1) := by
      rw [hydrateItem_snd, requestable_hydrate_ne v (v+1) (by omega)]
    have e3 : (hydrateItem (v+2)
        (hydrateItem (v+1) (hydrateItem v buf).fst).fst).snd =
        requestable buf (v+2) := by
      rw [hydrateItem_snd, requestable_hydrate_ne (v+1) (v+2) (by omega),
        requestable_hydrate_ne v (v+2) (by omega)]
    simp only [h0, if_false]
    rw [e1, e2, e3]
    cases hq1 : requestable buf v <;> cases hq2 : requestable buf (v+1) <;>
      cases hq3 : requestable buf (v+2) <;>
      simp [List.filter_cons, hq1, hq2, hq3]

/-! ## C4: the buffer is append-only and hydration is monotone -/

theorem statusRank_le_two (h : HydrationStatus) : statusRank h ≤ 2 := by
  cases h <;> simp [statusRank]

theorem applyBufStep_map_id (buf : List FeedItem) (st : BufStep) :
    ∃ rest, (applyBufStep buf st).map FeedItem.id =
      buf.map FeedItem.id ++ rest := by
  cases st with
  | start i =>
    refine ⟨[], ?_⟩
    rw [List.append_nil]
    show ((hydrateItem i buf).fst).map FeedItem.id = buf.map FeedItem.id
    unfold hydrateItem
    cases hbi : buf[i]? with
    | none => rfl
    | some item =>
      by_cases hst : item.hydrationStatus = .EMPTY
      · simpa [hst] using updateAt_map_id i
          (fun it => { it with hydrationStatus := .HYDRATED })
          (fun it => rfl) buf
      · simp [hst]
  | complete i img =>
    refine ⟨[], ?_⟩
    rw [List.append_nil]
    show (hydrateItemComplete i img buf).map FeedItem.id = buf.map FeedItem.id
    unfold hydrateItemComplete
    cases img with
    | none => rfl
    | some url =>
      by_cases hu : url = ""
      · simp [hu]
      · simpa [hu] using updateAt_map_id i
          (fun it => { it with imageUrl := url, hydrationStatus := .READY })
          (fun it => rfl) buf
  | extend pkg =>
    exact ⟨(pkg.map skeletonToEmpty).map FeedItem.id, by simp [applyBufStep]⟩

theorem applyBufStep_length (buf : List FeedItem) (st : BufStep) :
    buf.length ≤ (applyBufStep buf st).length := by
  obtain ⟨rest, h⟩ := applyBufStep_map_id buf st
  have h2 := congrArg List.length h
  simp only [List.length_map, List.length_append] at h2
  omega

theorem applyBufStep_rank (buf : List FeedItem) (st : BufStep) (i : ℕ)
    (x y : FeedItem) (hx : buf[i]? = some x)
    (hy : (applyBufStep buf st)[i]? = some y) :
    statusRank x.hydrationStatus ≤ statusRank y.hydrationStatus := by
  cases st with
  | start j =>
    have hy' : ((hydrateItem j buf).fst)[i]? = some y := hy
    unfold hydrateItem at hy'
    cases hbj : buf[j]? with
    | none =>
      rw [hbj] at hy'
      dsimp only at hy'
      rw [hx] at hy'
      obtain rfl : x = y := by simpa using hy'
      exact le_refl _
    | some item =>
      rw [hbj] at hy'
      dsimp only at hy'
      by_cases hst : item.hydrationStatus = .EMPTY
      · rw [if_pos hst] at hy'
        have hy2 : (updateAt j
            (fun it => { it with hydrationStatus := .HYDRATED }) buf)[i]? =
            some y := hy'
        rw [updateAt_getElem?] at hy2
        by_cases hij : i = j
        · subst hij
          rw [if_pos rfl, hx] at hy2
          obtain rfl : { x with hydrationStatus := HydrationStatus.HYDRATED } = y := by
            simpa using hy2
          have hxi : x = item := by
            rw [hbj] at hx
            exact (Option.some.inj hx).symm
          simp [hxi, hst, statusRank]
        · rw [if_neg hij, hx] at hy2
          obtain rfl : x = y := by simpa using hy2
          exact le_refl _
      · rw [if_neg hst] at hy'
        dsimp only at hy'
        rw [hx] at hy'
        obtain rfl : x = y := by simpa using hy'
        exact le_refl _
  | complete j img =>
    have hy' : (hydrateItemComplete j img buf)[i]? = some y := hy
    unfold hydrateItemComplete at hy'
    cases img with
    | none =>
      dsimp only at hy'
      rw [hx] at hy'
      obtain rfl : x = y := by simpa using hy'
      exact le_refl _
    | some url =>
      dsimp only at hy'
      by_cases hu : url = ""
      · rw [if_pos hu, hx] at hy'
        obtain rfl : x = y := by simpa using hy'
        exact le_refl _
      · rw [if_neg hu, updateAt_getElem?] at hy'
        by_cases hij : i = j
        · subst hij
          rw [if_pos rfl, hx] at hy'
          obtain rfl : { x with imageUrl := url, hydrationStatus := HydrationStatus.READY } = y := by
            simpa using hy'
          exact le_trans (statusRank_le_two _) (by simp [statusRank])
        · rw [if_neg hij, hx] at hy'
          obtain rfl : x = y := by simpa using hy'
          exact le_refl _
  | extend pkg =>
    have hy' : (buf ++ pkg.map skeletonToEmpty)[i]? = some y := hy
    have hlen : i < buf.length := (List.getElem?_eq_some.mp hx).1
    rw [List.getElem?_append] at hy'
    rw [if_pos hlen, hx] at hy'
    obtain rfl : x = y := by simpa using hy'
    exact le_refl _

theorem applyBufTrace_map_id (tr : List BufStep) :
    ∀ buf, ∃ rest, (applyBufTrace tr buf).map FeedItem.id =
      buf.map FeedItem.id ++ rest := by
  induction tr with
  | nil => intro buf; exact ⟨[], by simp [applyBufTrace]⟩
  | cons st tr ih =>
    intro buf
    obtain ⟨r1, h1⟩ := applyBufStep_map_id buf st
    obtain ⟨r2, h2⟩ := ih (applyBufStep buf st)
    refine ⟨r1 ++ r2, ?_⟩
    have step : applyBufTrace (st :: tr) buf =
        applyBufTrace tr (applyBufStep buf st) := rfl
    rw [step, h2, h1, List.append_assoc]

theorem applyBufTrace_rank (tr : List BufStep) :
    ∀ (buf : List FeedItem) (i : ℕ) (x y : FeedItem), buf[i]? = some x →
      (applyBufTrace tr buf)[i]? = some y →
      statusRank x.hydrationStatus ≤ statusRank y.hydrationStatus := by
  induction tr with
  | nil =>
    intro buf i x y hx hy
    have hy' : buf[i]? = some y := hy
    rw [hx] at hy'
    obtain rfl : x = y := by simpa using hy'
    exact le_refl _
  | cons st tr ih =>
    intro buf i x y hx hy
    have hlen : i < buf.length := (List.getElem?_eq_some.mp hx).1
    have hlen2 : i < (applyBufStep buf st).length :=
      lt_of_lt_of_le hlen (applyBufStep_length buf st)
    obtain ⟨z, hz⟩ : ∃ z, (applyBufStep buf st)[i]? = some z :=
      ⟨(applyBufStep buf st)[i], List.getElem?_eq_getElem hlen2⟩
    have hy' : (applyBufTrace tr (applyBufStep buf st))[i]? = some y := hy
    exact le_trans (applyBufStep_rank buf st i x z hx hz) (ih _ i z y hz hy')

/-- C4: across any sequence of `hydrateItem` calls, asynchronous
completions and `extendTrack` appends, the buffer is append-only (the
original items' ids remain a prefix, in order) and each item's
`hydrationStatus` only moves forward along
EMPTY → HYDRATED (HYDRATING) → READY. -/
theorem buffer_monotone_append_only (tr : List BufStep)
    (buf : List FeedItem) :
    (∃ rest, (applyBufTrace tr buf).map FeedItem.id =
      buf.map FeedItem.id ++ rest) ∧
    (∀ (i : ℕ) (x y : FeedItem), buf[i]? = some x →
      (applyBufTrace tr buf)[i]? = some y →
      statusRank x.hydrationStatus ≤ statusRank y.hydrationStatus) :=
  ⟨applyBufTrace_map_id tr buf,
   fun i x y hx hy => applyBufTrace_rank tr buf i x y hx hy⟩

/-- Witness for C4: one item hydrated to READY by a start/completion
pair followed by an extension. -/
theorem buffer_monotone_append_only_witness :
    ([sampleItem][0]? = some sampleItem) ∧
    ((applyBufTrace sampleTrace [sampleItem])[0]? = some sampleItemReady) ∧
    statusRank sampleItem.hydrationStatus ≤
      statusRank sampleItemReady.hydrationStatus :=
  ⟨by decide, by decide,
    (buffer_monotone_append_only sampleTrace [sampleItem]).2
      0 sampleItem sampleItemReady (by decide) (by decide)⟩

/-! ## C7: track extension at the end-of-buffer boundary -/

theorem endInteraction_contentBuffer (success : Bool) (now : ℤ)
    (s : IBLMState) :
    (endInteraction success now s).contentBuffer = s.contentBuffer := by
  unfold endInteraction
  cases s.activeInteraction <;> rfl

theorem scrollInteraction_contentBuffer (newIndex : ℕ) (now : ℤ)
    (st : IBLMState) :
    (scrollInteraction newIndex now st).contentBuffer = st.contentBuffer := by
  unfold scrollInteraction
  dsimp only
  split
  · exact endInteraction_contentBuffer true now st
  · exact endInteraction_contentBuffer true now st

theorem handleScroll_snd (newIndex : ℕ) (now : ℤ) (pkg : List Skeleton)
    (s : FeedState) :
    (handleScroll newIndex now pkg s).snd = true ↔
      (newIndex ≠ s.visibleIndex ∧
        (s.iblm.contentBuffer.length : ℤ) - 2 ≤ (newIndex : ℤ)) := by
  unfold handleScroll
  by_cases h1 : newIndex = s.visibleIndex
  · simp [h1]
  · by_cases h2 : (s.iblm.contentBuffer.length : ℤ) - 2 ≤ (newIndex : ℤ) <;>
      simp [h1, h2]

theorem handleScroll_buffer_of_snd (newIndex : ℕ) (now : ℤ)
    (pkg : List Skeleton) (s : FeedState)
    (h : (handleScroll newIndex now pkg s).snd = true) :
    (handleScroll newIndex now pkg s).fst.iblm.contentBuffer =
      s.iblm.contentBuffer ++ pkg.map skeletonToEmpty := by
  obtain ⟨h1, h2⟩ := (handleScroll_snd newIndex now pkg s).mp h
  unfold handleScroll
  rw [if_neg h1]
  dsimp only
  rw [if_pos h2]
  dsimp only
  show (extendTrack pkg (scrollInteraction newIndex now s.iblm)).contentBuffer
    = _
  unfold extendTrack
  rw [scrollInteraction_contentBuffer]

/-- C7: `extendTrack` is invoked by a scroll event exactly when it
moves the visible index and arrives within 2 items of the end of the
current buffer; every extension appends the generated batch with all
items in `EMPTY` state; and, with a batch of at least 3 items, a
subsequent scroll event to any position inside the previous buffer
range (every position strictly before the extended buffer's new
boundary) does not invoke `extendTrack` again. -/
theorem extendTrack_once_per_crossing (s : FeedState) (newIndex : ℕ)
    (now : ℤ) (pkg : List Skeleton) (hpkg : 3 ≤ pkg.length) :
    ((handleScroll newIndex now pkg s).snd = true ↔
      (newIndex ≠ s.visibleIndex ∧
        (s.iblm.contentBuffer.length : ℤ) - 2 ≤ (newIndex : ℤ))) ∧
    ((handleScroll newIndex now pkg s).snd = true →
      (handleScroll newIndex now pkg s).fst.iblm.contentBuffer =
        s.iblm.contentBuffer ++ pkg.map skeletonToEmpty ∧
      ∀ it ∈ pkg.map skeletonToEmpty, it.hydrationStatus = .EMPTY) ∧
    (∀ (n2 : ℕ) (now2 : ℤ) (pkg2 : List Skeleton),
      (handleScroll newIndex now pkg s).snd = true →
      n2 ≤ s.iblm.contentBuffer.length →
      (handleScroll n2 now2 pkg2 (handleScroll newIndex now pkg s).fst).snd
        = false) := by
  refine ⟨handleScroll_snd newIndex now pkg s, ?_, ?_⟩
  · intro h
    refine ⟨handleScroll_buffer_of_snd newIndex now pkg s h, ?_⟩
    intro it hit
    obtain ⟨p, _, rfl⟩ := List.mem_map.mp hit
    rfl
  · intro n2 now2 pkg2 h hle
    cases hsnd : (handleScroll n2 now2 pkg2
        (handleScroll newIndex now pkg s).fst).snd with
    | false => rfl
    | true =>
      exfalso
      have hr := (handleScroll_snd n2 now2 pkg2
        (handleScroll newIndex now pkg s).fst).mp hsnd
      have hbuf := handleScroll_buffer_of_snd newIndex now pkg s h
      have h2 := hr.2
      rw [hbuf] at h2
      rw [List.length_append, List.length_map] at h2
      push_cast at h2
      omega

/-- Witness for C7: a 4-item buffer viewed at index 1, scrolled to
index 2 (which is `length - 2`), with a 3-item batch. -/
theorem extendTrack_once_per_crossing_witness :
    3 ≤ samplePkg3.length ∧
    (((handleScroll 2 0 samplePkg3 sampleFeedState).snd = true ↔
      (2 ≠ sampleFeedState.visibleIndex ∧
        (sampleFeedState.iblm.contentBuffer.length : ℤ) - 2 ≤ ((2:ℕ) : ℤ))) ∧
    ((handleScroll 2 0 samplePkg3 sampleFeedState).snd = true →
      (handleScroll 2 0 samplePkg3 sampleFeedState).fst.iblm.contentBuffer =
        sampleFeedState.iblm.contentBuffer ++
          samplePkg3.map skeletonToEmpty ∧
      ∀ it ∈ samplePkg3.map skeletonToEmpty,
        it.hydrationStatus = .EMPTY) ∧
    (∀ (n2 : ℕ) (now2 : ℤ) (pkg2 : List Skeleton),
      (handleScroll 2 0 samplePkg3 sampleFeedState).snd = true →
      n2 ≤ sampleFeedState.iblm.contentBuffer.length →
      (handleScroll n2 now2 pkg2
        (handleScroll 2 0 samplePkg3 sampleFeedState).fst).snd = false)) :=
  ⟨by decide, extendTrack_once_per_crossing sampleFeedState 2 0 samplePkg3
    (by decide)⟩

end KidOS
